import Mathlib

/-!
Shallow embedding of the frame-sampling and request-orchestration pipeline
of `src/main.py` (a FastAPI video-analysis service), together with theorems
settling the specification claims about it.

The embedding follows the source function by function:

* `frameIndices` — the index-selection arithmetic of `extract_video_frames`
  (main.py lines 64-69), with the real-valued `step = frame_count / max_frames`
  rendered over `ℚ` and Python `int` truncation rendered as `Nat.floor`
  (all quantities are nonnegative).
* `extract_video_frames` — the whole extraction routine, over an abstract
  `Video` (the cv2 capture: probed frame count, per-index decode that can
  fail silently, and a possible thrown exception).
* `analyze_with_gemini` — the remote-analysis wrapper (main.py lines 96-144),
  with the network call's outcome abstracted as a `GenResult` oracle.
* `infer` / `test_endpoint` — the two HTTP handlers (main.py lines 160-276),
  returning both the response and a trace of their side effects (temp-file
  creation/deletion, remote-client invocation, network call).
-/

namespace VUChat

/-- `MAX_FRAMES` configuration constant (main.py line 37). -/
def MAX_FRAMES : Nat := 10

/-- A decoded still image; only the dimensions matter for the claims. -/
structure Frame where
  width : Nat
  height : Nat
deriving DecidableEq, Repr

/-- Abstract view of the cv2 capture opened on the stored video file:
the probed total frame count, the per-index decode (`cap.read` after a seek;
`none` models `ret == False`, a silent per-frame failure), and an optional
exception thrown by the decoding library during extraction. -/
structure Video where
  frameCount : Nat
  decode : Nat → Option Frame
  decodeRaises : Option String

/-- Index selection of `extract_video_frames` (main.py lines 64-69):
if `frame_count <= max_frames` take every index, otherwise
`step = frame_count / max_frames` (real-valued) and take
`int(i * step)` for `i in range(max_frames)`. -/
def frameIndices (frame_count max_frames : Nat) : List Nat :=
  if frame_count ≤ max_frames then
    List.range frame_count
  else
    (List.range max_frames).map
      (fun (i : Nat) => ⌊(i : ℚ) * ((frame_count : ℚ) / (max_frames : ℚ))⌋₊)

/-- Round-to-nearest (half up) division on naturals, used to model the
rounding of the aspect-preserved side in the thumbnail downscale. -/
def rdiv (a b : Nat) : Nat := (2 * a + b) / (2 * b)

/-- Modelled from the spec: the external `PIL.Image.thumbnail((cap, cap))`
call (main.py line 84) — aspect-preserving downscale so that the longest
side becomes exactly `cap` and the other side is rounded to keep the aspect
ratio, clamped to at least 1 pixel. -/
def thumbnailDims (w h cap : Nat) : Nat × Nat :=
  if h ≤ w then (cap, max 1 (rdiv (h * cap) w))
  else (max 1 (rdiv (w * cap) h), cap)

/-- The per-frame resize step of `extract_video_frames` (main.py lines 82-84):
downscale only when a dimension exceeds 1024. -/
def resizeFrame (f : Frame) : Frame :=
  if 1024 < f.width ∨ 1024 < f.height then
    let d := thumbnailDims f.width f.height 1024
    ⟨d.1, d.2⟩
  else f

/-- `extract_video_frames` (main.py lines 47-94): returns the sampled,
resized frames, or propagates a decoding-library exception wrapped as
`"Error extracting frames: ..."` (line 94). A zero probed frame count
returns the empty list (lines 60-62). Individual decode failures are
skipped silently (lines 74-76). -/
def extract_video_frames (video : Video) (max_frames : Nat) :
    Except String (List Frame) :=
  match video.decodeRaises with
  | some e => .error ("Error extracting frames: " ++ e)
  | none =>
    if video.frameCount = 0 then .ok []
    else
      .ok ((frameIndices video.frameCount max_frames).filterMap
        (fun i => (video.decode i).map resizeFrame))

/-- Outcome of the remote `model.generate_content` call: a response with
usable text, a falsy/empty response, or a raised exception message. -/
inductive GenResult where
  | ok (text : String)
  | empty
  | exn (msg : String)
deriving DecidableEq, Repr

/-- Spec-side error taxonomy for classified remote-call failures (§7). -/
inductive ErrClass where
  | invalidCredential
  | quotaExceeded
  | contentBlocked
  | unknownBackendError (original : String)
deriving DecidableEq, Repr

/-- Substring test: does `pat` occur inside `s`? (Models Python `in`.) -/
def containsSub (s pat : String) : Bool :=
  s.toList.tails.any (fun t => pat.toList.isPrefixOf t)

/-- Python `str.lower()`, character by character. -/
def lowerStr (s : String) : String :=
  String.mk (s.toList.map Char.toLower)

/-- Python `str.strip()`: drop leading and trailing whitespace. -/
def pyStrip (s : String) : String :=
  String.mk (((s.toList.dropWhile Char.isWhitespace).reverse.dropWhile
    Char.isWhitespace).reverse)

/-- Truthiness of `not s.strip()`: every character is whitespace. -/
def isBlank (s : String) : Bool :=
  s.toList.all Char.isWhitespace

/-- The user-visible message produced for each error class, exactly the
strings of main.py lines 137-144. -/
def errClassMessage : ErrClass → String
  | .invalidCredential => "Error: Invalid Google AI API key."
  | .quotaExceeded => "Error: API quota exceeded. Please try again later."
  | .contentBlocked => "Error: Content was blocked by safety filters."
  | .unknownBackendError e => "Error: " ++ e

/-- Spec-side classification of a raw failure message, written from the
spec's words (§7): lowercase the message and match known substrings in
order; the fallback carries the original message. -/
def classifySpec (e : String) : ErrClass :=
  let m := lowerStr e
  if containsSub m "api_key_invalid" || containsSub m "invalid api key" then
    .invalidCredential
  else if containsSub m "quota_exceeded" || containsSub m "quota" then
    .quotaExceeded
  else if containsSub m "safety" || containsSub m "blocked" then
    .contentBlocked
  else
    .unknownBackendError e

/-- `analyze_with_gemini` (main.py lines 96-144). `modelConfigured` is the
truthiness of the global `model`; `gen` is the outcome of the
`model.generate_content` network call when it is reached. Every branch
returns a string; exceptions are caught and classified (lines 133-144). -/
def analyze_with_gemini (modelConfigured : Bool) (frames : List Frame)
    (gen : GenResult) (_prompt : String) : String :=
  if !modelConfigured then
    "Error: Gemini API not configured. Please set GOOGLE_API_KEY environment variable."
  else if frames.isEmpty then
    "Error: No valid frames could be extracted from the video."
  else
    match gen with
    | .ok t => pyStrip t
    | .empty => "Error: Could not generate response from Gemini API."
    | .exn e =>
      let m := lowerStr e
      if containsSub m "api_key_invalid" || containsSub m "invalid api key" then
        "Error: Invalid Google AI API key."
      else if containsSub m "quota_exceeded" || containsSub m "quota" then
        "Error: API quota exceeded. Please try again later."
      else if containsSub m "safety" || containsSub m "blocked" then
        "Error: Content was blocked by safety filters."
      else
        "Error: " ++ e

/-- Allowed upload extensions (main.py line 189). -/
def ALLOWED_EXTENSIONS : List String := [".mp4", ".avi", ".mov", ".mkv", ".webm"]

/-- The part of a path after its last `/` separator. -/
def afterLastSep (cs : List Char) : List Char :=
  cs.foldl (fun acc c => if c = '/' then [] else acc ++ [c]) []

/-- Extension of a basename per Python `os.path.splitext`: the suffix from
the last dot, unless every character before that dot is itself a dot
(so `".bashrc"` has no extension). -/
def extAfterDots (base : List Char) : List Char :=
  let rest := base.dropWhile (fun c => c = '.')
  if rest.contains '.' then
    '.' :: (rest.reverse.takeWhile (fun c => decide (c ≠ '.'))).reverse
  else []

/-- `os.path.splitext(filename.lower())[1]` (main.py line 190). -/
def fileExtension (filename : String) : String :=
  String.mk (extAfterDots (afterLastSep (lowerStr filename).toList))

/-- Per-request environment: whether `GOOGLE_API_KEY`/`model` are configured,
the decoded view of the uploaded bytes once stored, and the remote call's
outcome if one is made. -/
structure InferEnv where
  apiKeyConfigured : Bool
  video : Video
  gen : GenResult

/-- Response of the `/infer` handler: a 200 plain-text body, or a raised
`HTTPException` (re-raised at main.py line 226 and turned into a JSON
`detail` response by the framework). -/
inductive InferResponse where
  | plain (body : String)
  | httpError (code : Nat) (detail : String)
deriving DecidableEq, Repr

/-- Result of one `/infer` request together with its side-effect trace. -/
structure InferTrace where
  response : InferResponse
  tempCreated : Bool
  tempExistsAfter : Bool
  remoteCalled : Bool
  networkCalled : Bool
deriving DecidableEq, Repr

/-- The message returned when the backend credential is missing
(main.py lines 102 and 186). -/
def GEMINI_NOT_CONFIGURED : String :=
  "Error: Gemini API not configured. Please set GOOGLE_API_KEY environment variable."

/-- The message for a disallowed upload extension (main.py line 193). -/
def UNSUPPORTED_FORMAT : String :=
  "Error: Unsupported video format. Supported formats: " ++
    String.intercalate ", " ALLOWED_EXTENSIONS

/-- The defined no-frames outcome of the orchestrator (main.py line 207). -/
def NO_FRAMES_MSG : String :=
  "Error: Could not extract any frames from the video. Please check the video file."

/-- The `/infer` handler (main.py lines 160-231), step for step:
validate filename, then prompt, then credential, then extension; write the
temp file; extract frames (the `finally` at lines 218-223 deletes the temp
file on this and on the exception path); short-circuit on an empty frame
list; otherwise call `analyze_with_gemini` (whose `generate_content` call
is the only network I/O). -/
def infer (filename prompt : String) (env : InferEnv) : InferTrace :=
  if filename = "" then
    ⟨.httpError 400 "No video file provided", false, false, false, false⟩
  else if isBlank prompt then
    ⟨.httpError 400 "No prompt provided", false, false, false, false⟩
  else if !env.apiKeyConfigured then
    ⟨.plain GEMINI_NOT_CONFIGURED, false, false, false, false⟩
  else if fileExtension filename ∉ ALLOWED_EXTENSIONS then
    ⟨.plain UNSUPPORTED_FORMAT, false, false, false, false⟩
  else
    match extract_video_frames env.video MAX_FRAMES with
    | .error e =>
      ⟨.plain ("Error: " ++ e), true, false, false, false⟩
    | .ok frames =>
      if frames.isEmpty then
        ⟨.plain NO_FRAMES_MSG, true, false, false, false⟩
      else
        ⟨.plain (analyze_with_gemini env.apiKeyConfigured frames env.gen prompt),
          true, false, true, true⟩

/-- JSON body of the `/test` handler (main.py lines 261-276). -/
structure TestResponse where
  success : Bool
  response : Option String
  error : Option String
  framesAnalyzed : Option Nat
  promptEcho : Option String
  videoFilename : Option String
deriving DecidableEq, Repr

/-- The `/test` handler (main.py lines 233-276): write the temp file,
extract frames, analyze, then `os.unlink` the temp file (line 257) — the
unlink is on the straight-line path only, not in a `finally`. The second
component of the result records whether the temp file still exists after
the request. -/
def test_endpoint (filename prompt : String) (env : InferEnv) :
    TestResponse × Bool :=
  match extract_video_frames env.video MAX_FRAMES with
  | .error e => (⟨false, none, some e, none, none, none⟩, true)
  | .ok frames =>
    (⟨true,
      some (analyze_with_gemini env.apiKeyConfigured frames env.gen prompt),
      none, some frames.length, some prompt, some filename⟩, false)

/-- Whether a response is a 200 plain-text body (as opposed to a raised
`HTTPException` turned into a JSON `detail` response). -/
def isPlainBody : InferResponse → Bool
  | .plain _ => true
  | .httpError _ _ => false

/-! ### Concrete fixtures -/

/-- A video that opens and probes zero total frames, without any decoder
exception. -/
def zeroFrameVideo : Video := ⟨0, fun _ => none, none⟩

/-- A 120-frame video whose decoding library raises during extraction. -/
def raisingVideo : Video := ⟨120, fun _ => some ⟨640, 480⟩, some "cv2 read failure"⟩

/-- A healthy 120-frame video decoding 640x480 frames. -/
def okVideo : Video := ⟨120, fun _ => some ⟨640, 480⟩, none⟩

/-- A 5-frame video decoding oversized 2048x1024 frames. -/
def bigVideo : Video := ⟨5, fun _ => some ⟨2048, 1024⟩, none⟩

/-! ### Frame-index arithmetic -/

/-- The real-valued step `i * (T / M)` floors to natural division `i * T / M`. -/
lemma floor_step (i T M : Nat) :
    ⌊(i : ℚ) * ((T : ℚ) / (M : ℚ))⌋₊ = i * T / M := by
  have h : (i : ℚ) * ((T : ℚ) / (M : ℚ)) = ((i * T : ℕ) : ℚ) / (M : ℚ) := by
    push_cast
    ring
  rw [h, Nat.floor_div_eq_div]

/-- `frameIndices` computed with natural division. -/
lemma frameIndices_eq_div (T M : Nat) :
    frameIndices T M =
      if T ≤ M then List.range T
      else (List.range M).map (fun i => i * T / M) := by
  unfold frameIndices
  split
  · rfl
  · simp only [floor_step]

/-- Division distributes sub-additively over addition. -/
lemma div_add_div_le (a b m : Nat) (hm : 0 < m) : a / m + b / m ≤ (a + b) / m := by
  rw [Nat.le_div_iff_mul_le hm, Nat.add_mul]
  exact Nat.add_le_add (Nat.div_mul_le_self a m) (Nat.div_mul_le_self b m)

/-- Strict monotonicity of the sampled indices when `M < T`. -/
lemma step_strict_mono (T M i j : Nat) (hM : 0 < M) (hMT : M < T) (hij : i < j) :
    i * T / M < j * T / M := by
  have h1 : 1 ≤ T / M := (Nat.one_le_div_iff hM).2 (Nat.le_of_lt hMT)
  have h2 : i * T / M + T / M ≤ (i * T + T) / M := div_add_div_le (i * T) T M hM
  have h3 : (i + 1) * T = i * T + T := by ring
  have h4 : (i + 1) * T / M ≤ j * T / M :=
    Nat.div_le_div_right (Nat.mul_le_mul_right T hij)
  rw [h3] at h4
  omega

/-- A sampled index in the `M < T` branch stays below `T`. -/
lemma step_lt_total (T M i : Nat) (hT : 0 < T) (hM : 0 < M) (hi : i < M) :
    i * T / M < T := by
  rw [Nat.div_lt_iff_lt_mul hM]
  calc i * T < M * T := (Nat.mul_lt_mul_right hT).2 hi
    _ = T * M := Nat.mul_comm M T

/-- C1: for a video with `T > 0` total frames and requested `max_frames = M > 0`,
the sampler selects exactly `0..T-1` when `T ≤ M` and otherwise
`⌊i * (T / M)⌋` for `i = 0..M-1`; in both branches the selected indices are
strictly increasing and all lie within `[0, T-1]`. -/
theorem frame_sampling_selects_even_indices (T M : Nat) (hT : 0 < T) (hM : 0 < M) :
    (T ≤ M → frameIndices T M = List.range T) ∧
    (M < T → frameIndices T M = (List.range M).map (fun i => i * T / M)) ∧
    List.Pairwise (· < ·) (frameIndices T M) ∧
    ∀ j ∈ frameIndices T M, j ≤ T - 1 := by
  rw [frameIndices_eq_div]
  by_cases hTM : T ≤ M
  · rw [if_pos hTM]
    refine ⟨fun _ => rfl, fun h => absurd hTM (Nat.not_le.2 h), List.pairwise_lt_range T, ?_⟩
    intro j hj
    have := List.mem_range.1 hj
    omega
  · rw [if_neg hTM]
    have hMT : M < T := Nat.lt_of_not_le hTM
    refine ⟨fun h => absurd h hTM, fun _ => rfl, ?_, ?_⟩
    · rw [List.pairwise_map]
      exact (List.pairwise_lt_range M).imp_of_mem
        (fun {a b} _ _ hab => step_strict_mono T M a b hM hMT hab)
    · intro j hj
      rcases List.mem_map.1 hj with ⟨i, hi, rfl⟩
      have := step_lt_total T M i hT hM (List.mem_range.1 hi)
      omega

/-- C1 witness: the 300-frame, `max_frames = 10` scenario yields exactly
the strictly increasing indices `[0, 30, 60, ..., 270]`. -/
theorem frame_sampling_selects_even_indices_witness :
    (0 < 300 ∧ 0 < 10 ∧ List.Pairwise (· < ·) (frameIndices 300 10)) ∧
    frameIndices 300 10 = [0, 30, 60, 90, 120, 150, 180, 210, 240, 270] :=
  ⟨⟨by decide, by decide,
    (frame_sampling_selects_even_indices 300 10 (by decide) (by decide)).2.2.1⟩,
   by rw [frameIndices_eq_div]; decide⟩

/-! ### Claim C3: zero probed frame count -/

/-- C3 counterexample: on a video probing zero frames, `extract_video_frames`
returns the successful result `ok []` — it does not fail with a
`DecodeError` as the claim states. -/
theorem zero_frames_returns_ok_not_error :
    extract_video_frames zeroFrameVideo MAX_FRAMES = Except.ok [] ∧
    (extract_video_frames zeroFrameVideo MAX_FRAMES).isOk = true :=
  ⟨rfl, rfl⟩

/-- C3 (amended): for every video source that raises no decoder exception and
probes zero total frames, `extract_video_frames` returns successfully with
the empty frame list; the failure is represented by the empty result, not by
a raised `DecodeError`. -/
theorem zero_frames_yields_empty_success (v : Video) (mf : Nat)
    (hr : v.decodeRaises = none) (h0 : v.frameCount = 0) :
    extract_video_frames v mf = Except.ok [] := by
  unfold extract_video_frames
  rw [hr]
  simp [h0]

/-- C3 witness: the amended statement at the zero-frame fixture. -/
theorem zero_frames_yields_empty_success_witness :
    zeroFrameVideo.decodeRaises = none ∧ zeroFrameVideo.frameCount = 0 ∧
    extract_video_frames zeroFrameVideo 10 = Except.ok [] :=
  ⟨rfl, rfl, zero_frames_yields_empty_success zeroFrameVideo 10 rfl rfl⟩

/-! ### Claim C2: temp-file lifetime -/

/-- C2: evaluation at the failing input. A `/test` request whose frame
extraction raises leaves the temporary file on disk (the `os.unlink` at
main.py line 257 is skipped when the exception jumps to the handler at
line 270) and reports `success = false`; a `/infer` request on the very same
input deletes the file through its `finally` block. -/
theorem test_endpoint_leaks_temp_on_extraction_error :
    (test_endpoint "clip.mp4" "what happens"
        ⟨true, raisingVideo, .empty⟩).2 = true ∧
    (test_endpoint "clip.mp4" "what happens"
        ⟨true, raisingVideo, .empty⟩).1.success = false ∧
    (infer "clip.mp4" "what happens"
        ⟨true, raisingVideo, .empty⟩).tempExistsAfter = false ∧
    (infer "clip.mp4" "what happens"
        ⟨true, raisingVideo, .empty⟩).tempCreated = true := by
  refine ⟨rfl, rfl, by decide, by decide⟩

/-! ### Claim C4: remote-failure classification -/

/-- `containsSub` decides the infix relation on the underlying char lists. -/
lemma containsSub_iff (s pat : String) :
    containsSub s pat = true ↔ pat.toList <:+: s.toList := by
  unfold containsSub
  rw [List.any_eq_true]
  constructor
  · rintro ⟨t, ht, hp⟩
    exact List.infix_iff_prefix_suffix.2
      ⟨t, List.isPrefixOf_iff_prefix.1 hp, (List.mem_tails t s.toList).1 ht⟩
  · intro hinf
    rcases List.infix_iff_prefix_suffix.1 hinf with ⟨t, hp, hs⟩
    exact ⟨t, (List.mem_tails t s.toList).2 hs, List.isPrefixOf_iff_prefix.2 hp⟩

/-- The exception branch of `analyze_with_gemini` computes exactly the
spec-side classification rendered as its user-visible message. -/
lemma analyze_exn_eq (e p : String) (frames : List Frame)
    (hne : frames.isEmpty = false) :
    analyze_with_gemini true frames (.exn e) p = errClassMessage (classifySpec e) := by
  simp only [analyze_with_gemini, Bool.not_true, Bool.false_eq_true, if_false, hne,
    classifySpec, apply_ite errClassMessage]
  simp only [errClassMessage]

/-- Every classified failure message begins with the characters
`"Error: "`. -/
lemma errClass_message_starts_error (e : String) :
    "Error: ".toList.isPrefixOf (errClassMessage (classifySpec e)).toList = true := by
  simp only [classifySpec]
  split
  · decide
  · split
    · decide
    · split
      · decide
      · show "Error: ".toList.isPrefixOf ("Error: ".toList ++ e.toList) = true
        exact List.isPrefixOf_iff_prefix.2 (List.prefix_append _ _)

/-- C4: inside `analyze_with_gemini`, every remote-call failure message is
classified exactly as `classifySpec` prescribes (lowercase, then the ordered
substring matches, with the fallback carrying the original message); and any
message whose lowercase form contains `"quota exceeded"` and matches neither
credential substring is classified `QuotaExceeded`. -/
theorem remote_failure_classification (e p : String) (frames : List Frame)
    (h : frames ≠ []) :
    analyze_with_gemini true frames (.exn e) p = errClassMessage (classifySpec e) ∧
    (containsSub (lowerStr e) "quota exceeded" = true →
      containsSub (lowerStr e) "api_key_invalid" = false →
      containsSub (lowerStr e) "invalid api key" = false →
      classifySpec e = ErrClass.quotaExceeded) := by
  constructor
  · have hne : frames.isEmpty = false := by
      cases frames with
      | nil => exact absurd rfl h
      | cons a l => rfl
    exact analyze_exn_eq e p frames hne
  · intro hq h1 h2
    have hinf : ("quota".toList) <:+: ("quota exceeded".toList) :=
      List.infix_iff_prefix_suffix.2
        ⟨"quota exceeded".toList, List.isPrefixOf_iff_prefix.1 (by decide),
          List.suffix_refl _⟩
    have hquota : containsSub (lowerStr e) "quota" = true :=
      (containsSub_iff _ _).2 (hinf.trans ((containsSub_iff _ _).1 hq))
    simp [classifySpec, h1, h2, hquota]

/-- C4 witness: a failure message containing `"quota exceeded"` is classified
`QuotaExceeded` and surfaces the quota message, not the unknown fallback. -/
theorem remote_failure_classification_witness :
    ([⟨640, 480⟩] : List Frame) ≠ [] ∧
    classifySpec "429 quota exceeded for project" = ErrClass.quotaExceeded ∧
    analyze_with_gemini true [⟨640, 480⟩] (.exn "429 quota exceeded for project") "q" =
      "Error: API quota exceeded. Please try again later." := by
  have h := remote_failure_classification "429 quota exceeded for project" "q"
    [⟨640, 480⟩] (by decide)
  have hc := h.2 (by decide) (by decide) (by decide)
  refine ⟨by decide, hc, ?_⟩
  rw [h.1, hc]
  rfl

/-! ### Claim C5: unconfigured credential -/

/-- C5 counterexample: with no credential configured, a `/infer` call whose
prompt is blank returns the 400 validation error, not the plain
`BackendUnconfigured` message, so not every call surfaces that outcome. -/
theorem unconfigured_blank_prompt_is_validation_error :
    (infer "clip.mp4" "   " ⟨false, okVideo, .empty⟩).response =
      InferResponse.httpError 400 "No prompt provided" ∧
    (infer "clip.mp4" "   " ⟨false, okVideo, .empty⟩).response ≠
      InferResponse.plain GEMINI_NOT_CONFIGURED := by
  decide

/-- C5 (amended): with no credential configured, no `/infer` request ever
invokes the remote client or performs network I/O, and every request that
passes the filename and prompt checks returns the `BackendUnconfigured`
message (the credential check precedes extension validation); requests
failing those checks surface the 400 validation error instead. -/
theorem unconfigured_never_calls_network (filename prompt : String) (env : InferEnv)
    (hcfg : env.apiKeyConfigured = false) :
    (infer filename prompt env).networkCalled = false ∧
    (infer filename prompt env).remoteCalled = false ∧
    (filename ≠ "" → isBlank prompt = false →
      infer filename prompt env =
        ⟨.plain GEMINI_NOT_CONFIGURED, false, false, false, false⟩) := by
  by_cases h1 : filename = ""
  · simp [infer, h1]
  · by_cases h2 : isBlank prompt = true
    · simp [infer, h1, h2]
    · simp [infer, h1, h2, hcfg]

/-- C5 witness: the amended statement at a concrete valid request with the
credential absent. -/
theorem unconfigured_never_calls_network_witness :
    (⟨false, okVideo, .empty⟩ : InferEnv).apiKeyConfigured = false ∧
    ("clip.avi" : String) ≠ "" ∧ isBlank "hi" = false ∧
    infer "clip.avi" "hi" ⟨false, okVideo, .empty⟩ =
      ⟨.plain GEMINI_NOT_CONFIGURED, false, false, false, false⟩ :=
  ⟨rfl, by decide, rfl,
    (unconfigured_never_calls_network "clip.avi" "hi" ⟨false, okVideo, .empty⟩
      rfl).2.2 (by decide) rfl⟩

/-! ### Claim C6: validation failures -/

/-- C6: each validation failure yields its own user-visible message before
any temp file, remote-client or network activity: a missing filename and a
blank prompt raise the two distinct 400 details, a disallowed extension
returns the unsupported-format message once the (earlier) credential check
passes, and every request failing one of the three checks creates no temp
file and makes no network call; the three messages are pairwise distinct. -/
theorem validation_failures_are_local (filename prompt : String) (env : InferEnv) :
    (filename = "" →
      infer filename prompt env =
        ⟨.httpError 400 "No video file provided", false, false, false, false⟩) ∧
    (filename ≠ "" → isBlank prompt = true →
      infer filename prompt env =
        ⟨.httpError 400 "No prompt provided", false, false, false, false⟩) ∧
    (filename ≠ "" → isBlank prompt = false → env.apiKeyConfigured = true →
      fileExtension filename ∉ ALLOWED_EXTENSIONS →
      infer filename prompt env =
        ⟨.plain UNSUPPORTED_FORMAT, false, false, false, false⟩) ∧
    ((filename = "" ∨ isBlank prompt = true ∨
        fileExtension filename ∉ ALLOWED_EXTENSIONS) →
      (infer filename prompt env).tempCreated = false ∧
      (infer filename prompt env).remoteCalled = false ∧
      (infer filename prompt env).networkCalled = false) ∧
    ([InferResponse.httpError 400 "No video file provided",
      InferResponse.httpError 400 "No prompt provided",
      InferResponse.plain UNSUPPORTED_FORMAT].Pairwise (· ≠ ·)) := by
  refine ⟨?_, ?_, ?_, ?_, by decide⟩
  · intro h1
    simp [infer, h1]
  · intro h1 h2
    simp [infer, h1, h2]
  · intro h1 h2 h3 h4
    simp [infer, h1, h2, h3, h4]
  · intro hval
    by_cases h1 : filename = ""
    · simp [infer, h1]
    · by_cases h2 : isBlank prompt = true
      · simp [infer, h1, h2]
      · cases hcfg : env.apiKeyConfigured with
        | false => simp [infer, h1, h2, hcfg]
        | true =>
          have h3 : fileExtension filename ∉ ALLOWED_EXTENSIONS := by
            rcases hval with h | h | h
            · exact absurd h h1
            · exact absurd h h2
            · exact h
          simp [infer, h1, h2, hcfg, h3]

/-- C6 witness: the whitespace-only prompt scenario — a 400 validation
error with no temp file created. -/
theorem validation_failures_are_local_witness :
    ("demo.mp4" : String) ≠ "" ∧ isBlank "   " = true ∧
    infer "demo.mp4" "   " ⟨true, okVideo, .empty⟩ =
      ⟨.httpError 400 "No prompt provided", false, false, false, false⟩ :=
  ⟨by decide, rfl,
    (validation_failures_are_local "demo.mp4" "   " ⟨true, okVideo, .empty⟩).2.1
      (by decide) rfl⟩

/-! ### Claim C7: size cap and aspect ratio -/

/-- `rdiv a b` stays below `c` whenever `a ≤ b * c`. -/
lemma rdiv_le (a b c : Nat) (hb : 0 < b) (h : a ≤ b * c) : rdiv a b ≤ c := by
  unfold rdiv
  rw [← Nat.lt_succ_iff, Nat.div_lt_iff_lt_mul (by omega : 0 < 2 * b)]
  have h3 : (c + 1) * (2 * b) = 2 * (b * c) + 2 * b := by ring
  rw [h3]
  linarith

/-- `rdiv a b * b` stays within `b` of `a`: rounding the quotient moves the
product by at most one denominator. -/
lemma rdiv_bound (a b : Nat) (hb : 0 < b) :
    rdiv a b * b ≤ a + b ∧ a ≤ rdiv a b * b + b := by
  unfold rdiv
  have hpos : 0 < 2 * b := by omega
  have hd := Nat.div_add_mod (2 * a + b) (2 * b)
  have hm := Nat.mod_lt (2 * a + b) hpos
  set q := (2 * a + b) / (2 * b) with hq
  set r := (2 * a + b) % (2 * b) with hr
  constructor
  · nlinarith
  · nlinarith

/-- The rounded short side of the thumbnail stays within the cap. -/
lemma thumb_side_le (long short : Nat) (hlong : 0 < long) (hshort : short ≤ long) :
    max 1 (rdiv (short * 1024) long) ≤ 1024 := by
  have hle : rdiv (short * 1024) long ≤ 1024 :=
    rdiv_le (short * 1024) long 1024 hlong (by nlinarith)
  omega

/-- The rounded short side keeps the cross products of the aspect ratio
within one original long side. -/
lemma thumb_side_cross (long short : Nat) (hlong : 0 < long) :
    1024 * short ≤ long * max 1 (rdiv (short * 1024) long) + long ∧
    long * max 1 (rdiv (short * 1024) long) ≤ 1024 * short + long := by
  have hb := rdiv_bound (short * 1024) long hlong
  rcases Nat.eq_zero_or_pos (rdiv (short * 1024) long) with hz | hp
  · have h10 : max 1 (rdiv (short * 1024) long) = 1 := by omega
    rw [h10]
    rw [hz] at hb
    constructor
    · nlinarith [hb.2]
    · nlinarith [hb.2]
  · have hmx : max 1 (rdiv (short * 1024) long) = rdiv (short * 1024) long := by
      omega
    rw [hmx]
    constructor
    · nlinarith [hb.2]
    · nlinarith [hb.1]

/-- The thumbnail downscale produces dimensions within the cap, makes the
longest side exactly the cap, and preserves the aspect ratio within one
rounding step (cross products differ by at most the original longest side). -/
lemma thumbnailDims_spec (w h : Nat) (hex : 1024 < w ∨ 1024 < h) :
    (thumbnailDims w h 1024).1 ≤ 1024 ∧ (thumbnailDims w h 1024).2 ≤ 1024 ∧
    max (thumbnailDims w h 1024).1 (thumbnailDims w h 1024).2 = 1024 ∧
    (thumbnailDims w h 1024).1 * h ≤ w * (thumbnailDims w h 1024).2 + max w h ∧
    w * (thumbnailDims w h 1024).2 ≤ (thumbnailDims w h 1024).1 * h + max w h := by
  unfold thumbnailDims
  by_cases hhw : h ≤ w
  · rw [if_pos hhw]
    have hw : 1024 < w := by omega
    have hle := thumb_side_le w h (by omega) hhw
    have hcross := thumb_side_cross w h (by omega)
    have hmaxwh : max w h = w := Nat.max_eq_left hhw
    refine ⟨le_refl 1024, hle, ?_, ?_, ?_⟩
    · show max 1024 (max 1 (rdiv (h * 1024) w)) = 1024
      omega
    · show 1024 * h ≤ w * max 1 (rdiv (h * 1024) w) + max w h
      rw [hmaxwh]
      exact hcross.1
    · show w * max 1 (rdiv (h * 1024) w) ≤ 1024 * h + max w h
      rw [hmaxwh]
      exact hcross.2
  · rw [if_neg hhw]
    have hwh : w < h := Nat.lt_of_not_le hhw
    have hh : 1024 < h := by omega
    have hle := thumb_side_le h w (by omega) (Nat.le_of_lt hwh)
    have hcross := thumb_side_cross h w (by omega)
    have hmaxwh : max w h = h := Nat.max_eq_right (Nat.le_of_lt hwh)
    refine ⟨hle, le_refl 1024, ?_, ?_, ?_⟩
    · show max (max 1 (rdiv (w * 1024) h)) 1024 = 1024
      omega
    · show max 1 (rdiv (w * 1024) h) * h ≤ w * 1024 + max w h
      rw [hmaxwh]
      nlinarith [hcross.2]
    · show w * 1024 ≤ max 1 (rdiv (w * 1024) h) * h + max w h
      rw [hmaxwh]
      nlinarith [hcross.1]

/-- Every frame that leaves the resize step fits inside the 1024 cap. -/
lemma resizeFrame_cap (f : Frame) :
    (resizeFrame f).width ≤ 1024 ∧ (resizeFrame f).height ≤ 1024 := by
  unfold resizeFrame
  split
  · case isTrue hex =>
    exact ⟨(thumbnailDims_spec f.width f.height hex).1,
      (thumbnailDims_spec f.width f.height hex).2.1⟩
  · case isFalse hns =>
    push_neg at hns
    exact ⟨hns.1, hns.2⟩

/-- C7: every frame in a successfully extracted FrameSet has width and
height at most 1024; and whenever a decoded frame exceeds the cap in either
dimension, the resize step makes its longest side exactly 1024 and preserves
the aspect ratio within rounding (cross products within the original longest
side of each other). -/
theorem sampled_frames_respect_size_cap (v : Video) (mf : Nat) (frames : List Frame)
    (hok : extract_video_frames v mf = Except.ok frames) :
    (∀ f ∈ frames, f.width ≤ 1024 ∧ f.height ≤ 1024) ∧
    (∀ g : Frame, 1024 < g.width ∨ 1024 < g.height →
      max (resizeFrame g).width (resizeFrame g).height = 1024 ∧
      (resizeFrame g).width * g.height ≤
        g.width * (resizeFrame g).height + max g.width g.height ∧
      g.width * (resizeFrame g).height ≤
        (resizeFrame g).width * g.height + max g.width g.height) := by
  constructor
  · intro f hf
    unfold extract_video_frames at hok
    split at hok
    · exact Except.noConfusion hok
    · split at hok
      · injection hok with hfr
        rw [← hfr] at hf
        exact absurd hf (List.not_mem_nil f)
      · injection hok with hfr
        rw [← hfr] at hf
        rcases List.mem_filterMap.1 hf with ⟨i, _, hsome⟩
        rcases hg : v.decode i with _ | g
        · rw [hg] at hsome
          exact Option.noConfusion hsome
        · rw [hg] at hsome
          have hsome' : some (resizeFrame g) = some f := hsome
          injection hsome' with hfg
          rw [← hfg]
          exact resizeFrame_cap g
  · intro g hex
    have hs := thumbnailDims_spec g.width g.height hex
    have hres : resizeFrame g = ⟨(thumbnailDims g.width g.height 1024).1,
        (thumbnailDims g.width g.height 1024).2⟩ := by
      unfold resizeFrame
      rw [if_pos hex]
    rw [hres]
    exact ⟨hs.2.2.1, hs.2.2.2.1, hs.2.2.2.2⟩

/-! ### Evaluating extraction on the fixtures -/

/-- Extraction on the healthy 120-frame fixture: ten evenly spaced frames. -/
lemma extract_okVideo_eval :
    extract_video_frames okVideo MAX_FRAMES =
      Except.ok (List.replicate 10 ⟨640, 480⟩) := by
  have h2 : extract_video_frames okVideo MAX_FRAMES =
      Except.ok ((frameIndices 120 10).filterMap
        (fun i => (okVideo.decode i).map resizeFrame)) := rfl
  have h1 : frameIndices 120 10 = [0, 12, 24, 36, 48, 60, 72, 84, 96, 108] := by
    rw [frameIndices_eq_div]
    decide
  rw [h2, h1]
  exact congrArg Except.ok (by decide)

/-- Extraction on the oversized-frame fixture: five downscaled frames. -/
lemma extract_bigVideo_eval :
    extract_video_frames bigVideo 10 =
      Except.ok (List.replicate 5 ⟨1024, 512⟩) := by
  have h2 : extract_video_frames bigVideo 10 =
      Except.ok ((frameIndices 5 10).filterMap
        (fun i => (bigVideo.decode i).map resizeFrame)) := rfl
  have h1 : frameIndices 5 10 = [0, 1, 2, 3, 4] := by
    rw [frameIndices_eq_div]
    decide
  rw [h2, h1]
  exact congrArg Except.ok (by decide)

/-- C7 witness: the oversized 2048x1024 fixture is downscaled to 1024x512,
within the cap and with longest side exactly 1024. -/
theorem sampled_frames_respect_size_cap_witness :
    extract_video_frames bigVideo 10 = Except.ok (List.replicate 5 ⟨1024, 512⟩) ∧
    ((⟨1024, 512⟩ : Frame).width ≤ 1024 ∧ (⟨1024, 512⟩ : Frame).height ≤ 1024) ∧
    max (resizeFrame ⟨2048, 1024⟩).width (resizeFrame ⟨2048, 1024⟩).height = 1024 := by
  have hok := extract_bigVideo_eval
  have h := sampled_frames_respect_size_cap bigVideo 10
    (List.replicate 5 ⟨1024, 512⟩) hok
  exact ⟨hok, h.1 ⟨1024, 512⟩ (by decide), (h.2 ⟨2048, 1024⟩ (by decide)).1⟩

/-! ### Claim C8: empty FrameSet short-circuit -/

/-- C8: on a request that reaches frame extraction, an empty extracted
FrameSet makes `/infer` return the defined no-frames outcome with the remote
client never invoked and no network call made. -/
theorem empty_frameset_short_circuits (filename prompt : String) (env : InferEnv)
    (h1 : filename ≠ "") (h2 : isBlank prompt = false)
    (h3 : env.apiKeyConfigured = true)
    (h4 : fileExtension filename ∈ ALLOWED_EXTENSIONS)
    (h5 : extract_video_frames env.video MAX_FRAMES = Except.ok []) :
    infer filename prompt env =
      ⟨.plain NO_FRAMES_MSG, true, false, false, false⟩ := by
  simp [infer, h1, h2, h3, h4, h5]

/-- C8 witness: the zero-frame fixture on a fully valid, configured request. -/
theorem empty_frameset_short_circuits_witness :
    ("demo.mp4" : String) ≠ "" ∧ isBlank "hi" = false ∧
    extract_video_frames zeroFrameVideo MAX_FRAMES = Except.ok [] ∧
    infer "demo.mp4" "hi" ⟨true, zeroFrameVideo, .ok "ans"⟩ =
      ⟨.plain NO_FRAMES_MSG, true, false, false, false⟩ :=
  ⟨by decide, rfl, rfl,
    empty_frameset_short_circuits "demo.mp4" "hi" ⟨true, zeroFrameVideo, .ok "ans"⟩
      (by decide) rfl rfl (by decide) rfl⟩

/-! ### Claim C9: response shape of /infer -/

/-- C9 counterexample: a blank prompt makes `/infer` raise an
`HTTPException` (a 400 JSON detail response), so not every completion of
`/infer` is a plain-text body that is the answer or starts with
`"Error: "`. -/
theorem blank_prompt_response_is_not_plain_text :
    (infer "clip.mp4" "   " ⟨true, okVideo, .ok "A cat."⟩).response =
      InferResponse.httpError 400 "No prompt provided" ∧
    isPlainBody (infer "clip.mp4" "   " ⟨true, okVideo, .ok "A cat."⟩).response
      = false := by
  decide

/-- C9 (amended): every plain-text (200) body returned by `/infer` is either
the trimmed model answer or a string beginning with `"Error: "`; the
missing-filename and blank-prompt validation failures are the only other
completions, and they surface as raised 400 HTTP errors rather than plain
text. -/
theorem infer_plain_body_answer_or_error (filename prompt : String)
    (env : InferEnv) (s : String)
    (hs : (infer filename prompt env).response = InferResponse.plain s) :
    "Error: ".toList.isPrefixOf s.toList = true ∨
      (∃ t, env.gen = GenResult.ok t ∧ s = pyStrip t) := by
  unfold infer at hs
  by_cases h1 : filename = ""
  · rw [if_pos h1] at hs
    exact InferResponse.noConfusion hs
  rw [if_neg h1] at hs
  by_cases h2 : isBlank prompt = true
  · rw [if_pos h2] at hs
    exact InferResponse.noConfusion hs
  rw [if_neg h2] at hs
  cases h3 : env.apiKeyConfigured with
  | false =>
    simp only [h3, Bool.not_false, if_true] at hs
    left
    rw [← InferResponse.plain.inj hs]
    decide
  | true =>
    simp only [h3, Bool.not_true, Bool.false_eq_true, if_false] at hs
    by_cases h4 : fileExtension filename ∉ ALLOWED_EXTENSIONS
    · rw [if_pos h4] at hs
      left
      rw [← InferResponse.plain.inj hs]
      decide
    · rw [if_neg h4] at hs
      rcases hx : extract_video_frames env.video MAX_FRAMES with e | frames
      · simp only [hx] at hs
        left
        rw [← InferResponse.plain.inj hs]
        show "Error: ".toList.isPrefixOf ("Error: ".toList ++ e.toList) = true
        exact List.isPrefixOf_iff_prefix.2 (List.prefix_append _ _)
      · simp only [hx] at hs
        by_cases h5 : frames.isEmpty = true
        · rw [if_pos h5] at hs
          left
          rw [← InferResponse.plain.inj hs]
          decide
        · rw [if_neg h5] at hs
          have hne : frames.isEmpty = false := by
            cases hfe : frames.isEmpty
            · rfl
            · exact absurd hfe h5
          have hana : analyze_with_gemini true frames env.gen prompt = s :=
            InferResponse.plain.inj hs
          rcases hgen : env.gen with t | _ | e
          · right
            refine ⟨t, rfl, ?_⟩
            rw [← hana, hgen]
            simp [analyze_with_gemini, hne]
          · left
            rw [← hana, hgen]
            have hred : analyze_with_gemini true frames GenResult.empty prompt =
                "Error: Could not generate response from Gemini API." := by
              simp [analyze_with_gemini, hne]
            rw [hred]
            decide
          · left
            rw [← hana, hgen, analyze_exn_eq e prompt frames hne]
            exact errClass_message_starts_error e

/-- C9 witness: the unconfigured-backend completion is a plain body starting
with `"Error: "`. -/
theorem infer_plain_body_answer_or_error_witness :
    (infer "clip.mp4" "hi" ⟨false, okVideo, .empty⟩).response =
      InferResponse.plain GEMINI_NOT_CONFIGURED ∧
    ("Error: ".toList.isPrefixOf GEMINI_NOT_CONFIGURED.toList = true ∨
      ∃ t, (⟨false, okVideo, .empty⟩ : InferEnv).gen = GenResult.ok t ∧
        GEMINI_NOT_CONFIGURED = pyStrip t) := by
  have hs : (infer "clip.mp4" "hi" ⟨false, okVideo, .empty⟩).response =
      InferResponse.plain GEMINI_NOT_CONFIGURED := by decide
  exact ⟨hs, infer_plain_body_answer_or_error "clip.mp4" "hi"
    ⟨false, okVideo, .empty⟩ GEMINI_NOT_CONFIGURED hs⟩

/-! ### Claim C10: /test success semantics -/

/-- C10: whenever frame extraction returns (even with frames that make the
analysis step produce an error string, such as the unconfigured-backend
message), `/test` reports `success = true` with the analysis text in the
`response` field; the `success = false` shape, with the exception text in
the `error` field, is produced exactly when extraction raises. -/
theorem test_endpoint_success_semantics (filename prompt : String) (env : InferEnv) :
    (∀ frames, extract_video_frames env.video MAX_FRAMES = Except.ok frames →
      test_endpoint filename prompt env =
        (⟨true, some (analyze_with_gemini env.apiKeyConfigured frames env.gen prompt),
          none, some frames.length, some prompt, some filename⟩, false)) ∧
    (∀ e, extract_video_frames env.video MAX_FRAMES = Except.error e →
      test_endpoint filename prompt env =
        (⟨false, none, some e, none, none, none⟩, true)) := by
  constructor
  · intro frames hx
    simp [test_endpoint, hx]
  · intro e hx
    simp [test_endpoint, hx]

/-- C10 witness: with the backend unconfigured, `/test` still reports
`success = true` and places the unconfigured-backend error text in the
`response` field. -/
theorem test_endpoint_success_semantics_witness :
    extract_video_frames okVideo MAX_FRAMES =
      Except.ok (List.replicate 10 ⟨640, 480⟩) ∧
    test_endpoint "clip.mp4" "hi" ⟨false, okVideo, .empty⟩ =
      (⟨true, some GEMINI_NOT_CONFIGURED, none, some 10, some "hi",
        some "clip.mp4"⟩, false) := by
  have hok := extract_okVideo_eval
  have h := (test_endpoint_success_semantics "clip.mp4" "hi"
    ⟨false, okVideo, .empty⟩).1 (List.replicate 10 ⟨640, 480⟩) hok
  refine ⟨hok, ?_⟩
  rw [h]
  rfl

end VUChat
